import Mathlib

/-!
Verification of the process-supervision bridge in
`src/apps/desktop/src-tauri/src/process.rs` and `commands.rs`.

The Rust function `run_python_transcription` spawns a worker thread that
builds a python command, spawns it with piped stdout/stderr, decodes the
stdout lines to events, forwards stderr lines as raw log events from a
second thread, waits for the process and publishes a terminal event.
Here the pieces are embedded shallowly: the JSON values produced by
`serde_json::from_str` are an inductive tree and the external parser is a
parameter `parse : String → Option Json`; a byte stream delivered by
`BufReader::lines` is a list of read results `Except String String`;
the observable traces of one supervision session are characterised by an
interleaving relation between the events of the worker thread and the
events of the stderr thread.
-/

namespace Sophia

/-- JSON-like tree: the shape of values produced by the external JSON
parser (`serde_json::Value`). -/
inductive Json : Type
  | null : Json
  | bool : Bool → Json
  | num : Int → Json
  | str : String → Json
  | arr : List Json → Json
  | obj : List (String × Json) → Json

/-- Field lookup in the ordered field list of a JSON object. -/
def lookupField : List (String × Json) → String → Option Json
  | [], _ => none
  | (k, v) :: rest, key => if k = key then some v else lookupField rest key

/-- serde_json `Value::get` with a string index: field lookup on objects,
`none` on every other shape. -/
def Json.get : Json → String → Option Json
  | .obj fields, key => lookupField fields key
  | _, _ => none

/-- serde_json `Value::as_str`: `some` exactly on JSON strings. -/
def Json.asStr : Json → Option String
  | .str s => some s
  | _ => none

/-- Payload of a published event: the Rust code emits either a
`serde_json::Value` or a plain `String`. -/
inductive Payload : Type
  | json : Json → Payload
  | text : String → Payload

/-- An event published to the sink (`app.emit(name, payload)`). -/
structure Event where
  name : String
  payload : Payload

/-- Decoder output for one line of stdout (spec §3 `LineClassification`). -/
inductive LineClassification : Type
  | StructuredEvent : String → Json → LineClassification
  | UntaggedPayload : Json → LineClassification
  | RawLine : String → LineClassification

/-- Classification of one stdout line, translated from the body of the
stdout loop in `run_python_transcription` (process.rs lines 69-77):
parse the line; on success look up a string-valued `event` field;
on parse failure fall back to the raw line. -/
def classifyLine (parse : String → Option Json) (l : String) : LineClassification :=
  match parse l with
  | some json_val =>
    match (json_val.get "event").bind Json.asStr with
    | some event_type => .StructuredEvent event_type json_val
    | none => .UntaggedPayload json_val
  | none => .RawLine l

/-- The event emitted for a classification: structured events under their
own name with the parsed value, untagged payloads under `log`, raw lines
under `log_raw` with the original text. -/
def eventFor : LineClassification → Event
  | .StructuredEvent n p => ⟨n, .json p⟩
  | .UntaggedPayload p => ⟨"log", .json p⟩
  | .RawLine t => ⟨"log_raw", .text t⟩

/-- Decode one stdout line and form the event published for it. -/
def emitForLine (parse : String → Option Json) (l : String) : Event :=
  eventFor (classifyLine parse l)

/-- One item yielded by `BufReader::lines()`: a line, or a read error. -/
abbrev ReadResult := Except String String

/-- The stdout reader loop (process.rs lines 64-80):
`for line in reader.lines() { if let Ok(l) = line { ... emit ... } }`.
An `Ok` line is decoded and published; an `Err` item is skipped and the
loop continues with the rest of the stream. -/
def readStdout (parse : String → Option Json) : List ReadResult → List Event
  | [] => []
  | .ok l :: rest => emitForLine parse l :: readStdout parse rest
  | .error _ :: rest => readStdout parse rest

/-- The stderr reader loop (process.rs lines 87-96): every `Ok` line is
published as `log_raw` with an origin prefix; `Err` items are skipped. -/
def readStderr : List ReadResult → List Event
  | [] => []
  | .ok l :: rest => ⟨"log_raw", .text ("STDERR: " ++ l)⟩ :: readStderr rest
  | .error _ :: rest => readStderr rest

/-- The successfully read lines of a stream, in arrival order. -/
def okLines : List ReadResult → List String
  | [] => []
  | .ok l :: rest => l :: okLines rest
  | .error _ :: rest => okLines rest

/-- A spawned child process as the supervision session observes it: its
two captured streams and the result of `wait` (on success the display
string of the exit status, on failure the display string of the error). -/
structure Child where
  stdout : List ReadResult
  stderr : List ReadResult
  wait : Except String String

/-- The terminal event published after `child.wait()` (process.rs lines
99-107): `process_exit` on a successful wait, `process_error` on a wait
failure. -/
def terminalEvent : Except String String → Event
  | .ok s => ⟨"process_exit", .text ("Exit code: " ++ s)⟩
  | .error e => ⟨"process_error", .text ("Wait error: " ++ e)⟩

/-- Interleaving of two event sequences published concurrently to one
sink whose publish calls are atomic: the merged trace keeps the relative
order of the events of each thread. -/
inductive Interleave : List Event → List Event → List Event → Prop
  | nil : Interleave [] [] []
  | left {x : Event} {xs ys zs : List Event} :
      Interleave xs ys zs → Interleave (x :: xs) ys (x :: zs)
  | right {y : Event} {xs ys zs : List Event} :
      Interleave xs ys zs → Interleave xs (y :: ys) (y :: zs)

/-- Observable event traces of one supervision session.  On spawn
failure the worker thread publishes a single `run_error` event and
returns.  On spawn success the worker thread first drains stdout to
completion, then spawns the stderr thread and itself waits for the
process and publishes the terminal event; so a trace is the stdout
events followed by any interleaving of the terminal event with the
events of the stderr thread. -/
def SessionTrace (parse : String → Option Json) (spawn : Except String Child)
    (t : List Event) : Prop :=
  match spawn with
  | .error e => t = [⟨"run_error", .text ("Failed to spawn python: " ++ e)⟩]
  | .ok c => ∃ tail, Interleave [terminalEvent c.wait] (readStderr c.stderr) tail
      ∧ t = readStdout parse c.stdout ++ tail

/-- A process invocation under construction (`std::process::Command`):
`arg` appends one argument, `env` adds one override. -/
structure Cmd where
  program : String
  args : List String
  cwd : Option String
  envs : List (String × String)

def Cmd.new (program : String) : Cmd :=
  ⟨program, [], none, []⟩

def Cmd.arg (c : Cmd) (a : String) : Cmd :=
  { c with args := c.args ++ [a] }

def Cmd.current_dir (c : Cmd) (d : String) : Cmd :=
  { c with cwd := some d }

def Cmd.env (c : Cmd) (k v : String) : Cmd :=
  { c with envs := c.envs ++ [(k, v)] }

/-- Command construction in `run_python_transcription` (process.rs lines
24-48): the fixed arguments, the comma-joined file list, the output
directory, the optional config, the working directory and the
`PYTHONUNBUFFERED` override, in the order of the `arg` calls of the
source. -/
def buildCmd (python_path script_path : String) (files : List String)
    (outdir : String) (config : Option String) : Cmd :=
  let cmd := Cmd.new python_path
  let cmd := ((((((cmd.arg "-m").arg "app.cli").arg "transcribe").arg
      "--files").arg (String.intercalate "," files)).arg "--outdir").arg outdir
  let cmd := match config with
    | some cfg => (cmd.arg "--config").arg cfg
    | none => cmd
  let cmd := cmd.current_dir script_path
  cmd.env "PYTHONUNBUFFERED" "1"

/-- What `run_python_transcription` yields: its immediate return value,
the command the worker thread builds, and the predicate describing which
event traces the spawned supervision session can publish. -/
structure RunOutcome where
  ret : Except String Unit
  cmd : Cmd
  traces : List Event → Prop

/-- Embedding of `run_python_transcription` (process.rs lines 14-111):
the function spawns the worker thread and immediately returns `Ok(())`;
the worker thread builds the command and runs the session whose traces
are `SessionTrace`.  The parser and the spawn outcome stand for the
external library and operating system. -/
def run_python_transcription (parse : String → Option Json)
    (spawn : Except String Child) (python_path script_path : String)
    (files : List String) (outdir : String) (config : Option String) :
    RunOutcome :=
  { ret := Except.ok ()
    cmd := buildCmd python_path script_path files outdir config
    traces := SessionTrace parse spawn }

/-- Embedding of `start_transcription` (commands.rs lines 6-48): resolve
the python path, core directory and config path from the home directory
(`HOME` with the hardcoded fallback), call `run_python_transcription`,
propagate an error with `?`, and return `Ok("Started")`. -/
def start_transcription (parse : String → Option Json)
    (spawn : Except String Child) (home : Option String)
    (files : List String) (outdir : String) (config_path : Option String) :
    Except String String :=
  let home_dir := home.getD "/Users/dragonpd"
  let project_root := home_dir ++ "/Sophia"
  let python_path := project_root ++ "/.venv/bin/python"
  let script_dir := project_root ++ "/core"
  let final_config_path := match config_path with
    | some path => path
    | none => project_root ++ "/sone/subtitle.asr.sone"
  match (run_python_transcription parse spawn python_path script_dir files
      outdir (some final_config_path)).ret with
  | .ok _ => .ok "Started"
  | .error e => .error e

/-- Whether an event is a terminal event synthesized by the supervisor:
named `process_exit` or `process_error` and carrying a plain-text
payload (decoded stdout events under those names carry JSON payloads,
so this separates the terminal publish of the supervisor from spoofed
lines). -/
def Payload.isText : Payload → Bool
  | .text _ => true
  | .json _ => false

def isTerminalB (e : Event) : Bool :=
  (e.name == "process_exit" || e.name == "process_error") && e.payload.isText

/-- A concrete parser instance used by witnesses: never parses. -/
def parse0 : String → Option Json := fun _ => none

/-! ### Helper lemmas -/

theorem interleave_sublist_left {xs ys zs : List Event}
    (h : Interleave xs ys zs) : List.Sublist xs zs := by
  induction h with
  | nil => exact List.Sublist.refl []
  | left _ ih => exact List.Sublist.cons₂ _ ih
  | right _ ih => exact List.Sublist.cons _ ih

theorem interleave_sublist_right {xs ys zs : List Event}
    (h : Interleave xs ys zs) : List.Sublist ys zs := by
  induction h with
  | nil => exact List.Sublist.refl []
  | left _ ih => exact List.Sublist.cons _ ih
  | right _ ih => exact List.Sublist.cons₂ _ ih

theorem interleave_countP (p : Event → Bool) {xs ys zs : List Event}
    (h : Interleave xs ys zs) :
    zs.countP p = xs.countP p + ys.countP p := by
  induction h with
  | nil => rfl
  | left _ ih => simp only [List.countP_cons, ih]; omega
  | right _ ih => simp only [List.countP_cons, ih]; omega

theorem isTerminalB_eventFor (c : LineClassification) :
    isTerminalB (eventFor c) = false := by
  cases c with
  | StructuredEvent n p => simp [eventFor, isTerminalB, Payload.isText]
  | UntaggedPayload p => simp [eventFor, isTerminalB, Payload.isText]
  | RawLine t => simp [eventFor, isTerminalB, Payload.isText]

theorem isTerminalB_terminalEvent (w : Except String String) :
    isTerminalB (terminalEvent w) = true := by
  cases w <;> rfl

theorem countP_readStdout (parse : String → Option Json)
    (rs : List ReadResult) :
    (readStdout parse rs).countP isTerminalB = 0 := by
  induction rs with
  | nil => rfl
  | cons r rest ih =>
    cases r with
    | ok l =>
      simp [readStdout, List.countP_cons, emitForLine,
        isTerminalB_eventFor, ih]
    | error e => simpa only [readStdout] using ih

theorem countP_readStderr (rs : List ReadResult) :
    (readStderr rs).countP isTerminalB = 0 := by
  induction rs with
  | nil => rfl
  | cons r rest ih =>
    cases r with
    | ok l => simpa [readStderr, List.countP_cons, isTerminalB,
        Payload.isText] using ih
    | error e => simpa only [readStderr] using ih

theorem readStdout_eq_map (parse : String → Option Json)
    (rs : List ReadResult) :
    readStdout parse rs = (okLines rs).map (emitForLine parse) := by
  induction rs with
  | nil => rfl
  | cons r rest ih =>
    cases r with
    | ok l => simp [readStdout, okLines, ih]
    | error e => simpa [readStdout, okLines] using ih

theorem readStderr_eq_map (rs : List ReadResult) :
    readStderr rs = (okLines rs).map
      (fun l => ⟨"log_raw", Payload.text ("STDERR: " ++ l)⟩) := by
  induction rs with
  | nil => rfl
  | cons r rest ih =>
    cases r with
    | ok l => simp [readStderr, okLines, ih]
    | error e => simpa [readStderr, okLines] using ih

/-! ### Claim theorems -/

/-- Claim C2: a line of the output stream that parses as a JSON object
containing a string-valued field named `event` is classified as a
structured event whose name is the value of that field, and is published
under that name with the full parsed structure as payload. -/
theorem structured_event_classification
    (parse : String → Option Json) (l : String) (j : Json) (ev : String)
    (hp : parse l = some j) (he : j.get "event" = some (Json.str ev)) :
    classifyLine parse l = LineClassification.StructuredEvent ev j
      ∧ emitForLine parse l = ⟨ev, Payload.json j⟩ := by
  constructor
  · simp [classifyLine, hp, he, Json.asStr]
  · simp [emitForLine, classifyLine, hp, he, Json.asStr, eventFor]

/-- Concrete JSON object used by the C2 witness:
the parse result of a line such as one carrying a progress event. -/
def exJson : Json := Json.obj [("event", Json.str "progress"), ("pct", Json.num 50)]

/-- Concrete parser instance used by the C2 witness. -/
def exParse : String → Option Json := fun _ => some exJson

theorem structured_event_classification_witness :
    exParse "x" = some exJson
      ∧ exJson.get "event" = some (Json.str "progress")
      ∧ emitForLine exParse "x" = ⟨"progress", Payload.json exJson⟩ :=
  ⟨rfl, rfl, (structured_event_classification exParse "x" exJson "progress" rfl rfl).2⟩

/-- Claim C3: decoding a line is total; a line that fails to parse as
JSON is classified as a raw line carrying the original text and is
published under the fixed fallback name `log_raw` with exactly that
text as payload. -/
theorem raw_line_fallback (parse : String → Option Json) (l : String)
    (hp : parse l = none) :
    classifyLine parse l = LineClassification.RawLine l
      ∧ emitForLine parse l = ⟨"log_raw", Payload.text l⟩ := by
  constructor
  · simp [classifyLine, hp]
  · simp [emitForLine, classifyLine, hp, eventFor]

theorem raw_line_fallback_witness :
    parse0 "hello world" = none
      ∧ emitForLine parse0 "hello world" = ⟨"log_raw", Payload.text "hello world"⟩ :=
  ⟨rfl, (raw_line_fallback parse0 "hello world" rfl).2⟩

/-- Claim C4: a line that parses successfully as JSON but has no
string-valued `event` field is classified as an untagged payload
carrying the full parsed structure and is published under the fixed
fallback name `log` with that structure as payload. -/
theorem untagged_payload_classification
    (parse : String → Option Json) (l : String) (j : Json)
    (hp : parse l = some j) (he : (j.get "event").bind Json.asStr = none) :
    classifyLine parse l = LineClassification.UntaggedPayload j
      ∧ emitForLine parse l = ⟨"log", Payload.json j⟩ := by
  constructor
  · simp [classifyLine, hp, he]
  · simp [emitForLine, classifyLine, hp, he, eventFor]

/-- Concrete JSON object used by the C4 witness: valid JSON with no
`event` field. -/
def exJsonNoTag : Json := Json.obj [("pct", Json.num 50)]

/-- Concrete parser instance used by the C4 witness. -/
def exParseNoTag : String → Option Json := fun _ => some exJsonNoTag

theorem untagged_payload_classification_witness :
    exParseNoTag "y" = some exJsonNoTag
      ∧ (exJsonNoTag.get "event").bind Json.asStr = none
      ∧ emitForLine exParseNoTag "y" = ⟨"log", Payload.json exJsonNoTag⟩ :=
  ⟨rfl, rfl, (untagged_payload_classification exParseNoTag "y" exJsonNoTag rfl rfl).2⟩

/-- Counterexample to claim C6 as stated: in the stdout reader loop a
read error does not terminate the loop and the remainder of the stream
is not abandoned — after an errored read, the following line `hello` is
still read and published. -/
theorem read_error_abandons_stream_counterexample :
    readStdout parse0 [Except.error "boom", Except.ok "hello"]
        = [⟨"log_raw", Payload.text "hello"⟩]
      ∧ readStdout parse0 [Except.error "boom", Except.ok "hello"]
        ≠ ([] : List Event) :=
  ⟨rfl, List.cons_ne_nil _ _⟩

/-- Claim C6 amended: a read error on either stream causes that read to
be skipped — no event is published for it — and the reader continues
with the remainder of the stream; decoding and publishing are total, so
the error never propagates as a crash. -/
theorem read_error_skipped (parse : String → Option Json) (e : String)
    (rest : List ReadResult) :
    readStdout parse (Except.error e :: rest) = readStdout parse rest
      ∧ readStderr (Except.error e :: rest) = readStderr rest :=
  ⟨rfl, rfl⟩

/-- Claim C8: the supervisor builds the invocation as a pure function of
the spec — the program, the ordered argument vector (with the ordered
input-file list joined into the `--files` argument), the working
directory and the environment override are exactly those of the
`arg`/`current_dir`/`env` calls of the source, in call order, with no
reordering. -/
theorem argv_order_preserved (python_path script_path : String)
    (files : List String) (outdir : String) (config : Option String) :
    (buildCmd python_path script_path files outdir config).program = python_path
      ∧ (buildCmd python_path script_path files outdir config).args
        = ["-m", "app.cli", "transcribe", "--files",
            String.intercalate "," files, "--outdir", outdir]
          ++ (match config with
              | some cfg => ["--config", cfg]
              | none => [])
      ∧ (buildCmd python_path script_path files outdir config).cwd
        = some script_path
      ∧ (buildCmd python_path script_path files outdir config).envs
        = [("PYTHONUNBUFFERED", "1")] := by
  cases config <;>
    simp [buildCmd, Cmd.new, Cmd.arg, Cmd.current_dir, Cmd.env]

/-- Claim C9: every line successfully read from the diagnostic stream is
published under `log_raw` with the raw text prefixed by `STDERR: ` to
mark its origin; the stderr reader never consults the JSON decoder, so
this holds whether or not the line would parse as JSON. -/
theorem stderr_lines_published_raw (rs : List ReadResult) :
    readStderr rs = (okLines rs).map
      (fun l => ⟨"log_raw", Payload.text ("STDERR: " ++ l)⟩) :=
  readStderr_eq_map rs

/-- Child used by the C1 counterexample: empty stdout, one stderr line,
successful wait. -/
def cexChild : Child := ⟨[], [Except.ok "oops"], Except.ok "0"⟩

/-- The terminal event of the C1 counterexample session. -/
def exitEv : Event := ⟨"process_exit", Payload.text "Exit code: 0"⟩

/-- The stderr event of the C1 counterexample session. -/
def strayEv : Event := ⟨"log_raw", Payload.text "STDERR: oops"⟩

/-- Counterexample to claim C1 as stated: the stderr reader runs on its
own thread which the worker never joins before publishing the terminal
event, so a session trace may publish a further (stderr) event after the
terminal event — here the valid trace publishes `log_raw` after
`process_exit`. -/
theorem terminal_not_last_counterexample :
    SessionTrace parse0 (Except.ok cexChild) [exitEv, strayEv]
      ∧ isTerminalB exitEv = true
      ∧ isTerminalB strayEv = false :=
  ⟨⟨[exitEv, strayEv], Interleave.left (Interleave.right Interleave.nil), rfl⟩,
    rfl, rfl⟩

/-- Claim C1 amended: in every trace of a supervision session whose
spawn succeeded, exactly one terminal event (`process_exit` on a
successful wait, `process_error` on a wait failure) is published, and
it is published only after the output-stream reader has finished (every
stdout-derived event precedes it); the diagnostic-stream reader, which
runs on an unjoined thread, may however still publish events after the
terminal event. -/
theorem terminal_event_unique_after_stdout
    (parse : String → Option Json) (c : Child) (t : List Event)
    (h : SessionTrace parse (Except.ok c) t) :
    t.countP isTerminalB = 1
      ∧ ∃ tail, t = readStdout parse c.stdout ++ tail
        ∧ tail.countP isTerminalB = 1 := by
  obtain ⟨tail, hint, ht⟩ := h
  have htail : tail.countP isTerminalB = 1 := by
    rw [interleave_countP isTerminalB hint, countP_readStderr]
    simp [List.countP_cons, isTerminalB_terminalEvent]
  subst ht
  refine ⟨?_, tail, rfl, htail⟩
  rw [List.countP_append, countP_readStdout, htail]

/-- Child used by the C1 and C7 witnesses: one good stdout line, one
errored read, another good line; one stderr line; successful wait. -/
def wChild : Child :=
  ⟨[Except.ok "a", Except.error "x", Except.ok "b"], [Except.ok "s"],
    Except.ok "0"⟩

/-- A concrete trace of the `wChild` session: both stdout events, then
the terminal event, then the stderr event. -/
def wTrace : List Event :=
  readStdout parse0 wChild.stdout
    ++ [terminalEvent wChild.wait, ⟨"log_raw", Payload.text "STDERR: s"⟩]

theorem terminal_event_unique_after_stdout_witness :
    wTrace.countP isTerminalB = 1
      ∧ ∃ tail, wTrace = readStdout parse0 wChild.stdout ++ tail
        ∧ tail.countP isTerminalB = 1 :=
  terminal_event_unique_after_stdout parse0 wChild wTrace
    ⟨[terminalEvent wChild.wait, ⟨"log_raw", Payload.text "STDERR: s"⟩],
      Interleave.left (Interleave.right Interleave.nil), rfl⟩

/-- Claim C5: if spawning the external process fails, the session trace
is exactly one `run_error` event carrying a message describing the
failure — so no reader event and no terminal event is ever published
for that attempt. -/
theorem spawn_failure_short_circuit (parse : String → Option Json)
    (e : String) (t : List Event)
    (h : SessionTrace parse (Except.error e) t) :
    t = [⟨"run_error", Payload.text ("Failed to spawn python: " ++ e)⟩]
      ∧ t.length = 1
      ∧ t.countP isTerminalB = 0 := by
  have ht : t = [⟨"run_error", Payload.text ("Failed to spawn python: " ++ e)⟩] := h
  subst ht
  exact ⟨rfl, rfl, rfl⟩

theorem spawn_failure_short_circuit_witness :
    ([⟨"run_error", Payload.text ("Failed to spawn python: " ++ "boom")⟩]
        : List Event).length = 1
      ∧ ([⟨"run_error", Payload.text ("Failed to spawn python: " ++ "boom")⟩]
        : List Event).countP isTerminalB = 0 :=
  ⟨(spawn_failure_short_circuit parse0 "boom" _ rfl).2.1,
    (spawn_failure_short_circuit parse0 "boom" _ rfl).2.2⟩

/-- Claim C7: every successfully read line of either stream yields
exactly one published event — the event list of the stream is the map of the
per-line event over its successfully read lines, in arrival order — and
in every trace of the session the events of each stream appear in that
same relative order (the stdout events as a prefix, the stderr events as
a sublist of the trace). -/
theorem line_events_ordered (parse : String → Option Json) (c : Child)
    (t : List Event) (h : SessionTrace parse (Except.ok c) t) :
    readStdout parse c.stdout = (okLines c.stdout).map (emitForLine parse)
      ∧ readStderr c.stderr = (okLines c.stderr).map
          (fun l => ⟨"log_raw", Payload.text ("STDERR: " ++ l)⟩)
      ∧ (∃ tail, t = readStdout parse c.stdout ++ tail)
      ∧ List.Sublist (readStderr c.stderr) t := by
  obtain ⟨tail, hint, ht⟩ := h
  subst ht
  refine ⟨readStdout_eq_map parse c.stdout, readStderr_eq_map c.stderr,
    ⟨tail, rfl⟩, ?_⟩
  exact (interleave_sublist_right hint).trans
    (List.sublist_append_right _ _)

theorem line_events_ordered_witness :
    readStdout parse0 wChild.stdout
        = (okLines wChild.stdout).map (emitForLine parse0)
      ∧ readStderr wChild.stderr = (okLines wChild.stderr).map
          (fun l => ⟨"log_raw", Payload.text ("STDERR: " ++ l)⟩)
      ∧ (∃ tail, wTrace = readStdout parse0 wChild.stdout ++ tail)
      ∧ List.Sublist (readStderr wChild.stderr) wTrace :=
  line_events_ordered parse0 wChild wTrace
    ⟨[terminalEvent wChild.wait, ⟨"log_raw", Payload.text "STDERR: s"⟩],
      Interleave.left (Interleave.right Interleave.nil), rfl⟩

/-- Claim C10: for every input and every spawn outcome the public start
operation returns `Ok(())` — and its caller `start_transcription`
returns `Ok("Started")` — so a spawn failure is never reflected in the
return value; it is reported only through the sink, as the single
`run_error` event of the session trace. -/
theorem run_returns_ok (parse : String → Option Json)
    (spawn : Except String Child) (python_path script_path : String)
    (files : List String) (outdir : String) (config : Option String)
    (home : Option String) :
    (run_python_transcription parse spawn python_path script_path files
        outdir config).ret = Except.ok ()
      ∧ start_transcription parse spawn home files outdir config
        = Except.ok "Started"
      ∧ ∀ e t, spawn = Except.error e →
          (run_python_transcription parse spawn python_path script_path
            files outdir config).traces t →
          t = [⟨"run_error", Payload.text ("Failed to spawn python: " ++ e)⟩] := by
  refine ⟨rfl, rfl, ?_⟩
  intro e t hspawn htr
  subst hspawn
  exact htr

theorem run_returns_ok_witness :
    (run_python_transcription parse0 (Except.error "boom") "py" "core"
        [] "out" none).ret = Except.ok ()
      ∧ ([⟨"run_error", Payload.text ("Failed to spawn python: " ++ "boom")⟩]
          : List Event)
        = [⟨"run_error", Payload.text ("Failed to spawn python: " ++ "boom")⟩] :=
  ⟨(run_returns_ok parse0 (Except.error "boom") "py" "core" [] "out"
      none none).1,
    (run_returns_ok parse0 (Except.error "boom") "py" "core" [] "out"
      none none).2.2 "boom" _ rfl rfl⟩

end Sophia
